import Mathlib

/-!
# Verification of the TinyURL reconciliation cron job

A shallow embedding of `update.py` (and its near-duplicate variant
`update-tinyurl/update.py`, which differs only in the field names it
queries and in logging verbosity).  The program fetches records from an
Airtable view, and for each record in order attempts to create a TinyURL
alias and writes a status string back to the record's `script` field.

External HTTP calls are modelled by an environment of oracles: each call
either raises an exception (`Except.error msg`, modelling a raised Python
exception carrying `str(e)`) or returns an HTTP status code.  The run is
summarised as a trace of externally visible events (fetch, alias-creation
request, status write, pacing sleep) together with an optional uncaught
exception that aborts the whole run.
-/

namespace TinyUrlJob

/-- Python truthiness test `not x` for an optional string:
`None` and the empty string are falsy. -/
def falsy : Option String → Bool
  | none => true
  | some s => s == ""

/-- `dict.get(key)` on a field mapping: the value at the first matching key. -/
def lookupField : List (String × String) → String → Option String
  | [], _ => none
  | (k, v) :: rest, key => if k = key then some v else lookupField rest key

/-- One Airtable record as the loop sees it: `record.get('id')` and
`record.get('fields', {})`; a record may lack either key. -/
structure AirtableRecord where
  id : Option String
  fields : Option (List (String × String))
deriving DecidableEq

/-- The JSON body POSTed to the TinyURL creation endpoint. -/
structure TinyUrlPayload where
  url : String
  domain : String
  aliasName : String
deriving DecidableEq

/-- The store-read response: an HTTP status, and the parse of the JSON body
(`data.get('records', [])`: the body may lack the `records` key, and
parsing may itself raise). -/
structure FetchResponse where
  status : Nat
  jsonRecords : Except String (Option (List AirtableRecord))

/-- Oracles for the external world: the result of the Airtable GET, of a
TinyURL POST with a given payload, and of an Airtable PATCH writing a
status message to a record id.  `Except.error e` models a raised
exception with message `e`; `Except.ok n` an HTTP response with status
`n`. -/
structure Env where
  fetchResp : Except String FetchResponse
  post : TinyUrlPayload → Except String Nat
  patch : Option String → String → Except String Nat

/-- The two near-duplicate entry points differ only in the field names
they use; the spec treats the field-name set as configuration. -/
structure Variant where
  nameField : String
  targetField : String
deriving DecidableEq

/-- `update.py`: fields `Name [Primary]`, `rec-id`, `url-to-send`. -/
def variantA : Variant := { nameField := "Name [Primary]", targetField := "url-to-send" }

/-- `update-tinyurl/update.py`: fields `Name`, `rec-id`, `big-url`. -/
def variantB : Variant := { nameField := "Name", targetField := "big-url" }

/-- Credentials read from the environment at startup. -/
structure Config where
  airtableApiKey : Option String
  tinyurlApiToken : Option String
deriving DecidableEq

/-- Externally visible events of one run, in order. -/
inductive Event where
  | fetchCall : Event
  | createCall (url slug : String) : Event
  | writeCall (recordId : Option String) (message : String) : Event
  | sleepCall (seconds : Nat) : Event
deriving DecidableEq

/-- `fetch_airtable_records`: on HTTP 200 return the parsed `records`
array (defaulting to `[]`); on any other status log and return `[]`;
a raised exception propagates. -/
def fetch_airtable_records (env : Env) : Except String (List AirtableRecord) :=
  match env.fetchResp with
  | Except.error e => Except.error e
  | Except.ok resp =>
    if resp.status == 200 then
      match resp.jsonRecords with
      | Except.error e => Except.error e
      | Except.ok data => Except.ok (data.getD [])
    else
      Except.ok []

/-- `create_tinyurl`: POST `{url, domain: "tinyurl.com", alias: "kb-" ++ slug}`
and report whether the response status was 200; an exception propagates. -/
def create_tinyurl (env : Env) (url slug : String) : Except String Bool :=
  (env.post { url := url, domain := "tinyurl.com", aliasName := "kb-" ++ slug }).map
    (fun status => status == 200)

/-- `update_airtable_script_field`: PATCH the record's `script` field and
report whether the response status was 200; an exception propagates. -/
def update_airtable_script_field (env : Env) (record_id : Option String)
    (status_message : String) : Except String Bool :=
  (env.patch record_id status_message).map (fun status => status == 200)

/-- The status message chosen from the boolean result of `create_tinyurl`. -/
def statusMsg (success : Bool) : String :=
  if success then "tinyurl valid" else "error - tinyurl creation failed"

/-- The `except Exception as e:` handler of the per-record loop: write
`"error - " ++ str(e)`; this write itself is unguarded, so its own
exception escapes as an uncaught abort. -/
def handleFault (env : Env) (record_id : Option String) (prior : List Event)
    (e : String) : List Event × Option String :=
  let error_msg := "error - " ++ e
  match update_airtable_script_field env record_id error_msg with
  | Except.error e2 => (prior ++ [Event.writeCall record_id error_msg], some e2)
  | Except.ok _ => (prior ++ [Event.writeCall record_id error_msg], none)

/-- The `try:` body of the per-record loop: call `create_tinyurl`, write
the success/failure status, then sleep 3 seconds; any exception raised in
the body (by the creation call or by the status write) goes to
`handleFault`, skipping the sleep. -/
def tryBody (env : Env) (record_id : Option String) (u k : String) :
    List Event × Option String :=
  match create_tinyurl env u k with
  | Except.error e => handleFault env record_id [Event.createCall u k] e
  | Except.ok success =>
    let msg := statusMsg success
    match update_airtable_script_field env record_id msg with
    | Except.error e =>
      handleFault env record_id
        [Event.createCall u k, Event.writeCall record_id msg] e
    | Except.ok _ =>
      ([Event.createCall u k, Event.writeCall record_id msg, Event.sleepCall 3],
        none)

/-- One iteration of the per-record loop body of `main`: validate the
required fields, and either write the missing-field status (this write is
outside the `try`, so its exception escapes) or run the try body. -/
def processRecord (v : Variant) (env : Env) (r : AirtableRecord) :
    List Event × Option String :=
  let fields := r.fields.getD []
  let record_id := r.id
  let rec_id := lookupField fields "rec-id"
  let url_to_send := lookupField fields v.targetField
  if falsy rec_id || falsy url_to_send then
    let msg := "error - missing rec-id or " ++ v.targetField
    match update_airtable_script_field env record_id msg with
    | Except.error e => ([Event.writeCall record_id msg], some e)
    | Except.ok _ => ([Event.writeCall record_id msg], none)
  else
    tryBody env record_id (url_to_send.getD "") (rec_id.getD "")

/-- The `for` loop of `main` over the fetched records, in order; an
uncaught exception from a record aborts the remainder of the batch. -/
def processRecords (v : Variant) (env : Env) :
    List AirtableRecord → List Event × Option String
  | [] => ([], none)
  | r :: rs =>
    match processRecord v env r with
    | (evs, some e) => (evs, some e)
    | (evs, none) =>
      let rest := processRecords v env rs
      (evs ++ rest.1, rest.2)

/-- `main`: check the two mandatory credentials, fetch the records, and
process them in order. -/
def main (v : Variant) (cfg : Config) (env : Env) : List Event × Option String :=
  if falsy cfg.airtableApiKey then ([], none)
  else if falsy cfg.tinyurlApiToken then ([], none)
  else
    match fetch_airtable_records env with
    | Except.error e => ([Event.fetchCall], some e)
    | Except.ok records =>
      let res := processRecords v env records
      (Event.fetchCall :: res.1, res.2)

/-- The status writes (record id, message) extracted from a trace, in order. -/
def statusWrites : List Event → List (Option String × String)
  | [] => []
  | Event.writeCall rid msg :: rest => (rid, msg) :: statusWrites rest
  | _ :: rest => statusWrites rest

/-- A nonempty string is not falsy. -/
theorem falsy_some_false {s : String} (h : s ≠ "") : falsy (some s) = false := by
  simp [falsy, h]

/-! ## Concrete environments and records used to instantiate the theorems -/

/-- A well-behaved environment: every call returns HTTP 200 and the fetch
body parses to an empty record list. -/
def envOk : Env :=
  { fetchResp := Except.ok ⟨200, Except.ok (some [])⟩,
    post := fun _ => Except.ok 200,
    patch := fun _ _ => Except.ok 200 }

/-- An environment where the TinyURL POST raises a network exception. -/
def envPostRaises : Env :=
  { fetchResp := Except.ok ⟨200, Except.ok (some [])⟩,
    post := fun _ => Except.error "connection reset",
    patch := fun _ _ => Except.ok 200 }

/-- An environment where the store read raises (store unreachable). -/
def envUnreachable : Env :=
  { fetchResp := Except.error "cannot connect to host",
    post := fun _ => Except.ok 200,
    patch := fun _ _ => Except.ok 200 }

/-- An environment where the store read answers with HTTP 404. -/
def envFetch404 : Env :=
  { fetchResp := Except.ok ⟨404, Except.error "body not parsed"⟩,
    post := fun _ => Except.ok 200,
    patch := fun _ _ => Except.ok 200 }

/-- An environment where alias creation fails (HTTP 400) for the URL
`http://a` and succeeds for every other URL. -/
def envMixed : Env :=
  { fetchResp := Except.ok ⟨200, Except.ok (some [])⟩,
    post := fun p => if p.url = "http://a" then Except.ok 400 else Except.ok 200,
    patch := fun _ _ => Except.ok 200 }

/-- Both credentials present. -/
def cfgOk : Config := { airtableApiKey := some "key", tinyurlApiToken := some "tok" }

/-- A record with both required fields present and non-empty. -/
def recValid : AirtableRecord :=
  { id := some "r1", fields := some [("rec-id", "x1"), ("url-to-send", "http://a")] }

/-- A second valid record, with a different URL. -/
def recValidB : AirtableRecord :=
  { id := some "r2", fields := some [("rec-id", "x2"), ("url-to-send", "http://b")] }

/-! ## Helper lemmas -/

/-- A record whose processing raised no uncaught exception is followed by
the rest of the batch. -/
theorem processRecords_cons (v : Variant) (env : Env) (r : AirtableRecord)
    (rs : List AirtableRecord) (h : (processRecord v env r).2 = none) :
    processRecords v env (r :: rs) =
      ((processRecord v env r).1 ++ (processRecords v env rs).1,
        (processRecords v env rs).2) := by
  rcases hpr : processRecord v env r with ⟨evs, ab⟩
  rw [hpr] at h
  have hab : ab = none := h
  subst hab
  simp [processRecords, hpr]

/-- On a record with both required fields present and non-empty, the loop
body runs the `try` body on the extracted URL and key. -/
theorem processRecord_valid (v : Variant) (env : Env) (r : AirtableRecord)
    (u k : String)
    (hk : lookupField (r.fields.getD []) "rec-id" = some k) (hk0 : k ≠ "")
    (hu : lookupField (r.fields.getD []) v.targetField = some u) (hu0 : u ≠ "") :
    processRecord v env r = tryBody env r.id u k := by
  simp only [processRecord]
  rw [hk, hu, falsy_some_false hk0, falsy_some_false hu0]
  simp [Option.getD]

/-! ## Claims -/

/-- C10: a fetched record lacking a `fields` mapping entirely is treated
exactly like one with an empty `fields` mapping — it takes the Invalid
path, and the missing-field status write is still attempted, with the
record's (possibly absent) id passed through as-is. -/
theorem c10_missing_fields_mapping (v : Variant) (env : Env) (idOpt : Option String) :
    processRecord v env { id := idOpt, fields := none } =
      processRecord v env { id := idOpt, fields := some [] } ∧
    (processRecord v env { id := idOpt, fields := none }).1 =
      [Event.writeCall idOpt ("error - missing rec-id or " ++ v.targetField)] := by
  refine ⟨rfl, ?_⟩
  simp only [processRecord, Option.getD, lookupField, falsy]
  cases hw : update_airtable_script_field env idOpt
      ("error - missing rec-id or " ++ v.targetField) with
  | error e => simp [hw]
  | ok b => simp [hw]

/-- C5: if either mandatory credential is absent (or empty), the run
returns immediately: the trace is empty (no fetch, no alias creation, no
status write) and no exception escapes. -/
theorem c5_missing_credentials (v : Variant) (cfg : Config) (env : Env)
    (h : falsy cfg.airtableApiKey = true ∨ falsy cfg.tinyurlApiToken = true) :
    main v cfg env = ([], none) := by
  unfold main
  rcases h with h | h
  · simp [h]
  · by_cases hk : falsy cfg.airtableApiKey <;> simp [hk, h]

theorem c5_missing_credentials_witness :
    main variantA { airtableApiKey := none, tinyurlApiToken := some "tok" } envOk
      = ([], none) :=
  c5_missing_credentials variantA
    { airtableApiKey := none, tinyurlApiToken := some "tok" } envOk (Or.inl rfl)

/-- C1: on a record whose `rec-id` or target-URL field is absent or empty,
the loop makes no alias-creation call and applies no pacing delay: the
record contributes exactly one status write, with the message
`"error - missing rec-id or <target field>"`, and (when that write
returns) the loop advances to the rest of the batch. -/
theorem c1_invalid_record (v : Variant) (env : Env) (r : AirtableRecord)
    (rs : List AirtableRecord) (s : Nat)
    (hinv : (falsy (lookupField (r.fields.getD []) "rec-id") ||
             falsy (lookupField (r.fields.getD []) v.targetField)) = true)
    (hw : env.patch r.id ("error - missing rec-id or " ++ v.targetField) = Except.ok s) :
    processRecords v env (r :: rs) =
      (Event.writeCall r.id ("error - missing rec-id or " ++ v.targetField)
          :: (processRecords v env rs).1,
        (processRecords v env rs).2) := by
  have hpr : processRecord v env r =
      ([Event.writeCall r.id ("error - missing rec-id or " ++ v.targetField)], none) := by
    simp only [processRecord]
    rw [hinv]
    simp [update_airtable_script_field, hw, Except.map]
  rw [processRecords_cons v env r rs (by rw [hpr])]
  rw [hpr]
  simp

theorem c1_invalid_record_witness :
    processRecords variantA envOk
        [{ id := some "r3", fields := some [("rec-id", "")] }] =
      ([Event.writeCall (some "r3") "error - missing rec-id or url-to-send"], none) := by
  have h := c1_invalid_record variantA envOk
      { id := some "r3", fields := some [("rec-id", "")] } [] 200 (by decide) rfl
  simpa using h

/-- C2: on a valid record, if `create_tinyurl` returns `true` the status
written to the record is exactly `"tinyurl valid"`, and if it returns
`false` without raising the status written is exactly
`"error - tinyurl creation failed"` (stated via the first status write the
record's processing issues). -/
theorem c2_create_outcome_status (v : Variant) (env : Env) (r : AirtableRecord)
    (u k : String) (b : Bool)
    (hk : lookupField (r.fields.getD []) "rec-id" = some k) (hk0 : k ≠ "")
    (hu : lookupField (r.fields.getD []) v.targetField = some u) (hu0 : u ≠ "")
    (hc : create_tinyurl env u k = Except.ok b) :
    (statusWrites (processRecord v env r).1).head? =
      some (r.id, if b then "tinyurl valid" else "error - tinyurl creation failed") := by
  rw [processRecord_valid v env r u k hk hk0 hu hu0]
  unfold tryBody
  rw [hc]
  cases hw : update_airtable_script_field env r.id (statusMsg b) with
  | error e =>
    simp only [statusMsg] at hw
    cases hw2 : update_airtable_script_field env r.id ("error - " ++ e) with
    | error e2 => simp [handleFault, statusWrites, statusMsg, hw, hw2]
    | ok s2 => simp [handleFault, statusWrites, statusMsg, hw, hw2]
  | ok s =>
    simp only [statusMsg] at hw
    simp [statusWrites, statusMsg, hw]

theorem c2_create_outcome_status_witness :
    (statusWrites (processRecord variantA envOk recValid).1).head? =
      some (some "r1", "tinyurl valid") := by
  have h := c2_create_outcome_status variantA envOk recValid "http://a" "x1" true
      (by decide) (by decide) (by decide) (by decide) rfl
  simpa using h

/-- C3: an exception raised while processing a valid record — whether from
the alias-creation call or from the status write on the create path — is
caught at the per-record boundary: a status `"error - <message>"` is
written and, provided that fault-reporting write returns (with any HTTP
status, success or not), the loop advances to the rest of the batch. -/
theorem c3_per_record_fault_boundary (v : Variant) (env : Env) (r : AirtableRecord)
    (rs : List AirtableRecord) (u k : String)
    (hk : lookupField (r.fields.getD []) "rec-id" = some k) (hk0 : k ≠ "")
    (hu : lookupField (r.fields.getD []) v.targetField = some u) (hu0 : u ≠ "") :
    (∀ e s, create_tinyurl env u k = Except.error e →
        env.patch r.id ("error - " ++ e) = Except.ok s →
        processRecords v env (r :: rs) =
          ([Event.createCall u k, Event.writeCall r.id ("error - " ++ e)]
              ++ (processRecords v env rs).1,
            (processRecords v env rs).2)) ∧
    (∀ b e s, create_tinyurl env u k = Except.ok b →
        env.patch r.id (statusMsg b) = Except.error e →
        env.patch r.id ("error - " ++ e) = Except.ok s →
        processRecords v env (r :: rs) =
          ([Event.createCall u k, Event.writeCall r.id (statusMsg b),
              Event.writeCall r.id ("error - " ++ e)]
              ++ (processRecords v env rs).1,
            (processRecords v env rs).2)) := by
  constructor
  · intro e s hc hw
    have hpr : processRecord v env r =
        ([Event.createCall u k, Event.writeCall r.id ("error - " ++ e)], none) := by
      rw [processRecord_valid v env r u k hk hk0 hu hu0]
      unfold tryBody
      rw [hc]
      simp [handleFault, update_airtable_script_field, hw, Except.map]
    rw [processRecords_cons v env r rs (by rw [hpr])]
    rw [hpr]
  · intro b e s hc hw1 hw2
    have hpr : processRecord v env r =
        ([Event.createCall u k, Event.writeCall r.id (statusMsg b),
            Event.writeCall r.id ("error - " ++ e)], none) := by
      rw [processRecord_valid v env r u k hk hk0 hu hu0]
      unfold tryBody
      rw [hc]
      simp [handleFault, update_airtable_script_field, hw1, hw2, Except.map]
    rw [processRecords_cons v env r rs (by rw [hpr])]
    rw [hpr]

theorem c3_per_record_fault_boundary_witness :
    processRecords variantA envPostRaises [recValid, recValidB] =
      ([Event.createCall "http://a" "x1",
        Event.writeCall (some "r1") "error - connection reset",
        Event.createCall "http://b" "x2",
        Event.writeCall (some "r2") "error - connection reset"], none) := by
  have h := (c3_per_record_fault_boundary variantA envPostRaises recValid
      [recValidB] "http://a" "x1" (by decide) (by decide) (by decide) (by decide)).1
      "connection reset" 200 rfl rfl
  rw [h]
  decide

/-- C4 counterexample: a record whose alias-creation call raises (Faulted)
incurs no pacing delay — an alias-creation attempt was made, yet the
record's trace contains no sleep event, contradicting the claim that the
delay occurs regardless of whether the attempt ended in Succeeded, Failed,
or Faulted. -/
theorem c4_faulted_record_skips_delay :
    Event.createCall "http://a" "x1" ∈ (processRecord variantA envPostRaises recValid).1 ∧
    Event.sleepCall 3 ∉ (processRecord variantA envPostRaises recValid).1 := by
  decide

/-- C4 (amended): the 3-unit pacing delay occurs exactly after a record
whose alias-creation call returned (Succeeded or Failed) and whose status
write returned without raising; a Faulted record — whether the creation
call raised or the subsequent status write raised — skips the delay, and
an Invalid record (missing fields) incurs no delay. -/
theorem c4_pacing_delay (v : Variant) (env : Env) (r : AirtableRecord) :
    (∀ u k b s,
      lookupField (r.fields.getD []) "rec-id" = some k → k ≠ "" →
      lookupField (r.fields.getD []) v.targetField = some u → u ≠ "" →
      create_tinyurl env u k = Except.ok b →
      env.patch r.id (statusMsg b) = Except.ok s →
      (processRecord v env r).1 =
        [Event.createCall u k, Event.writeCall r.id (statusMsg b), Event.sleepCall 3]) ∧
    (∀ u k e,
      lookupField (r.fields.getD []) "rec-id" = some k → k ≠ "" →
      lookupField (r.fields.getD []) v.targetField = some u → u ≠ "" →
      create_tinyurl env u k = Except.error e →
      Event.sleepCall 3 ∉ (processRecord v env r).1) ∧
    (∀ u k b e,
      lookupField (r.fields.getD []) "rec-id" = some k → k ≠ "" →
      lookupField (r.fields.getD []) v.targetField = some u → u ≠ "" →
      create_tinyurl env u k = Except.ok b →
      update_airtable_script_field env r.id (statusMsg b) = Except.error e →
      Event.sleepCall 3 ∉ (processRecord v env r).1) ∧
    ((falsy (lookupField (r.fields.getD []) "rec-id") ||
      falsy (lookupField (r.fields.getD []) v.targetField)) = true →
      Event.sleepCall 3 ∉ (processRecord v env r).1) := by
  refine ⟨?_, ?_, ?_, ?_⟩
  · intro u k b s hk hk0 hu hu0 hc hw
    rw [processRecord_valid v env r u k hk hk0 hu hu0]
    unfold tryBody
    rw [hc]
    simp [update_airtable_script_field, hw, Except.map]
  · intro u k e hk hk0 hu hu0 hc
    rw [processRecord_valid v env r u k hk hk0 hu hu0]
    unfold tryBody
    rw [hc]
    cases hw : update_airtable_script_field env r.id ("error - " ++ e) with
    | error e2 => simp [handleFault, hw]
    | ok s => simp [handleFault, hw]
  · intro u k b e hk hk0 hu hu0 hc hw
    rw [processRecord_valid v env r u k hk hk0 hu hu0]
    unfold tryBody
    rw [hc]
    simp only [statusMsg] at hw
    cases hw2 : update_airtable_script_field env r.id ("error - " ++ e) with
    | error e2 => simp [handleFault, statusMsg, hw, hw2]
    | ok s2 => simp [handleFault, statusMsg, hw, hw2]
  · intro hinv
    simp only [processRecord]
    rw [hinv]
    cases hw : update_airtable_script_field env r.id
        ("error - missing rec-id or " ++ v.targetField) with
    | error e => simp [hw]
    | ok s => simp [hw]

theorem c4_pacing_delay_witness :
    (processRecord variantA envOk recValid).1 =
      [Event.createCall "http://a" "x1",
        Event.writeCall (some "r1") "tinyurl valid", Event.sleepCall 3] := by
  have h := (c4_pacing_delay variantA envOk recValid).1 "http://a" "x1" true 200
      (by decide) (by decide) (by decide) (by decide) rfl rfl
  simpa using h

/-- C6: whenever every record's processing reaches a terminal outcome
(no uncaught exception escapes it — its outcome may be Invalid, Failed,
Faulted or Succeeded), the batch processes all records strictly in fetch
order: the run's trace is the concatenation of the per-record traces in
order, and the run never terminates early. -/
theorem c6_order_preserved_no_early_exit (v : Variant) (env : Env)
    (rs : List AirtableRecord)
    (h : ∀ r ∈ rs, (processRecord v env r).2 = none) :
    processRecords v env rs =
      ((rs.map (fun r => (processRecord v env r).1)).flatten, none) := by
  induction rs with
  | nil => rfl
  | cons r rest ih =>
    rw [processRecords_cons v env r rest (h r (by simp))]
    rw [ih (fun x hx => h x (by simp [hx]))]
    simp

theorem c6_order_preserved_no_early_exit_witness :
    processRecords variantA envMixed [recValid, recValidB] =
      ([Event.createCall "http://a" "x1",
        Event.writeCall (some "r1") "error - tinyurl creation failed",
        Event.sleepCall 3,
        Event.createCall "http://b" "x2",
        Event.writeCall (some "r2") "tinyurl valid",
        Event.sleepCall 3], none) := by
  have h := c6_order_preserved_no_early_exit variantA envMixed [recValid, recValidB]
      (by decide)
  rw [h]
  decide

/-- C7 counterexample: a network failure during the TinyURL POST does not
make `create_tinyurl` yield `false` — the exception propagates out of the
call instead, contradicting the claim that any non-success outcome
(including network failure) yields `false`. -/
theorem c7_network_failure_raises :
    create_tinyurl envPostRaises "http://a" "x1" = Except.error "connection reset" ∧
    create_tinyurl envPostRaises "http://a" "x1" ≠ Except.ok false := by
  refine ⟨rfl, ?_⟩
  intro h
  rw [show create_tinyurl envPostRaises "http://a" "x1"
      = Except.error "connection reset" from rfl] at h
  exact Except.noConfusion h

/-- C7 (amended): the alias requested from the shortening service is
exactly `"kb-"` ++ slug under domain `"tinyurl.com"`, and the call returns
`true` exactly on an explicit success response (HTTP 200) to that request;
a non-success response status yields `false`, while a network failure
(raised exception) propagates to the caller, which records it as a fault. -/
theorem c7_alias_creator (env : Env) (url slug : String) :
    (create_tinyurl env url slug = Except.ok true ↔
      env.post { url := url, domain := "tinyurl.com", aliasName := "kb-" ++ slug }
        = Except.ok 200) ∧
    (∀ n, env.post { url := url, domain := "tinyurl.com", aliasName := "kb-" ++ slug }
        = Except.ok n → n ≠ 200 → create_tinyurl env url slug = Except.ok false) ∧
    (∀ e, env.post { url := url, domain := "tinyurl.com", aliasName := "kb-" ++ slug }
        = Except.error e → create_tinyurl env url slug = Except.error e) := by
  refine ⟨⟨?_, ?_⟩, ?_, ?_⟩
  · intro h
    unfold create_tinyurl at h
    cases hp : env.post { url := url, domain := "tinyurl.com", aliasName := "kb-" ++ slug } with
    | error e =>
      rw [hp] at h
      simp [Except.map] at h
    | ok n =>
      rw [hp] at h
      simp [Except.map] at h
      rw [h]
  · intro h
    unfold create_tinyurl
    rw [h]
    simp [Except.map]
  · intro n hn h200
    unfold create_tinyurl
    rw [hn]
    simp [Except.map, h200]
  · intro e he
    unfold create_tinyurl
    rw [he]
    simp [Except.map]

theorem c7_alias_creator_witness :
    create_tinyurl envOk "http://a" "x1" = Except.ok true :=
  (c7_alias_creator envOk "http://a" "x1").1.mpr rfl

/-- C8 counterexample: an unreachable store (the read raises instead of
answering) is fatal to the run — the exception propagates out of
`fetch_airtable_records` and aborts `main`, contradicting the claim that
an unreachable or missing store is never fatal. -/
theorem c8_unreachable_store_fatal :
    fetch_airtable_records envUnreachable = Except.error "cannot connect to host" ∧
    main variantA cfgOk envUnreachable
      = ([Event.fetchCall], some "cannot connect to host") :=
  ⟨rfl, rfl⟩

/-- C8 (amended): when the store read answers with a non-success HTTP
response, `fetch_airtable_records` returns an empty sequence rather than
raising, and the batch run becomes a no-op — a store answering with an
error status is not fatal; only a read that raises (e.g. an unreachable
store) aborts the run. -/
theorem c8_fetch_error_response_noop (env : Env) (resp : FetchResponse)
    (hr : env.fetchResp = Except.ok resp) (hs : resp.status ≠ 200) :
    fetch_airtable_records env = Except.ok [] ∧
    (∀ v cfg, falsy cfg.airtableApiKey = false → falsy cfg.tinyurlApiToken = false →
      main v cfg env = ([Event.fetchCall], none)) := by
  have hf : fetch_airtable_records env = Except.ok [] := by
    simp [fetch_airtable_records, hr, hs]
  refine ⟨hf, ?_⟩
  intro v cfg h1 h2
  simp [main, h1, h2, hf, processRecords]

theorem c8_fetch_error_response_noop_witness :
    main variantA cfgOk envFetch404 = ([Event.fetchCall], none) :=
  (c8_fetch_error_response_noop envFetch404 ⟨404, Except.error "body not parsed"⟩
      rfl (by decide)).2 variantA cfgOk rfl rfl

/-- Two records that agree on their id and on every field other than the
display-name field. -/
def sameExceptName (nm : String) (r1 r2 : AirtableRecord) : Prop :=
  r1.id = r2.id ∧ ∀ key, key ≠ nm →
    lookupField (r1.fields.getD []) key = lookupField (r2.fields.getD []) key

/-- The per-record loop body never reads the display-name field except for
logging, so it is invariant under changes to it. -/
theorem processRecord_name_irrelevant (v : Variant) (env : Env)
    (hn1 : v.nameField ≠ "rec-id") (hn2 : v.nameField ≠ v.targetField)
    (r1 r2 : AirtableRecord) (h : sameExceptName v.nameField r1 r2) :
    processRecord v env r1 = processRecord v env r2 := by
  obtain ⟨hid, hf⟩ := h
  have e1 := hf "rec-id" (Ne.symm hn1)
  have e2 := hf v.targetField (Ne.symm hn2)
  simp only [processRecord]
  rw [hid, e1, e2]

/-- C9: the display-name field influences only logging — two fetched
batches whose records agree pairwise on everything except the name field
produce identical runs: the same alias-creation requests, the same status
writes (targets and messages), the same pacing, in the same order. -/
theorem c9_name_field_noninterference (v : Variant) (env : Env)
    (hn1 : v.nameField ≠ "rec-id") (hn2 : v.nameField ≠ v.targetField)
    (rs1 rs2 : List AirtableRecord)
    (h : List.Forall₂ (sameExceptName v.nameField) rs1 rs2) :
    processRecords v env rs1 = processRecords v env rs2 := by
  induction h with
  | nil => rfl
  | cons hr _ ih =>
    simp only [processRecords]
    rw [processRecord_name_irrelevant v env hn1 hn2 _ _ hr, ih]

/-- `recValid` with the display name `"Alice"` attached. -/
def recNamedA : AirtableRecord :=
  { id := some "r1",
    fields := some [("Name [Primary]", "Alice"), ("rec-id", "x1"), ("url-to-send", "http://a")] }

/-- `recNamedA` with the display name changed to `"Bob"`. -/
def recNamedB : AirtableRecord :=
  { id := some "r1",
    fields := some [("Name [Primary]", "Bob"), ("rec-id", "x1"), ("url-to-send", "http://a")] }

theorem c9_name_field_noninterference_witness :
    processRecords variantA envOk [recNamedA] = processRecords variantA envOk [recNamedB] := by
  have hsim : sameExceptName variantA.nameField recNamedA recNamedB := by
    refine ⟨rfl, ?_⟩
    intro key hk
    have hk2 : key ≠ "Name [Primary]" := by simpa [variantA] using hk
    have h1 : ¬(("Name [Primary]" : String) = key) := fun hh => hk2 hh.symm
    simp only [recNamedA, recNamedB, Option.getD]
    simp only [lookupField]
    rw [if_neg h1, if_neg h1]
  exact c9_name_field_noninterference variantA envOk (by decide) (by decide)
    [recNamedA] [recNamedB] (List.Forall₂.cons hsim List.Forall₂.nil)

end TinyUrlJob
